import Mathlib

/-!
Verification of the lazy-image / cached-download support layer
(src/lib/schema.py, src/lib/utils/downloads.py, src/lib/utils/gitignore.py)
against its specification.

The embedding is shallow: each Python function of interest becomes an
executable Lean definition over explicit state.  External collaborators
(PIL, the HTTP stack, the credential store, the provider cache, the
configured cache directory) are passed as oracle parameters.  Comments cite
the source lines each definition embeds.
-/

/-- Abstract in-memory decoded image (a PIL `Image.Image` value), identified
by its pixel content. -/
abbrev Img := Nat

/-- Python truthiness of an `str | None` argument: `None` and `""` are falsy,
every other string is truthy. -/
def truthyStr : Option String → Bool
  | none => false
  | some s => s != ""

/-- Python truthiness of an `Image.Image | None` argument: `None` is falsy, an
image object is truthy (PIL images define no `__bool__`/`__len__`). -/
def truthyImg : Option Img → Bool
  | none => false
  | some _ => true

/-- The exceptions that `LazyLoadingImage.__init__` (src/lib/schema.py) can
raise, plus the `NameError` that the interpreter raises at line 48. -/
inductive InitError
  | valueErrorNoSource
  -- NameError: name u64 is not defined (schema.py line 48)
  | nameErrorU64
  -- ValueError "You cannot multiple input methods" (line 49, unreachable)
  | valueErrorMultiple
  -- FileNotFoundError (line 53, unreachable)
  | fileNotFound
  -- InvalidUrlError (line 62, unreachable)
  | invalidUrl
  deriving DecidableEq

/-- The instance state set by `__init__` lines 69-71: `_lazy_filepath`,
`_lazy_url`, `_img`. -/
structure LazyState where
  lazyFilepath : Option String
  lazyUrl : Option String
  img : Option Img
  deriving DecidableEq

/-- `LazyLoadingImage.__init__` (src/lib/schema.py lines 36-71).

Line 44: `if not filepath and not url and not img and not b64:` raises
`ValueError` when every source is falsy.  Otherwise control reaches line 48,
`if sum([bool(filepath), bool(url), bool(img), bool(u64)]) > 1:`, which
evaluates `bool(u64)`; the name `u64` is not defined anywhere in the module
(the parameter is spelled `b64`), so the interpreter raises `NameError`
before the sum is formed.  Every later line of the constructor (the
multiple-source `ValueError`, the file-existence check, the URL validation,
the base64 decode, the attribute assignments) is therefore unreachable. -/
def LazyLoadingImage.init (filepath url : Option String) (img : Option Img)
    (b64 : Option String) : Except InitError LazyState :=
  if truthyStr filepath || truthyStr url || truthyImg img || truthyStr b64 then
    .error .nameErrorU64
  else
    .error .valueErrorNoSource

/-- The outcome of `urllib3.util.parse_url`: the scheme and host components
(each possibly absent). -/
structure ParsedUrl where
  scheme : Option String
  host : Option String
  deriving DecidableEq

/-- The URL-validation block of `__init__` (src/lib/schema.py lines 55-64),
taken in isolation with the outcome of `urllib3.util.parse_url(url)` supplied
as input (`.error` when `parse_url` raised `LocationValueError`).

When `parse_url` raises, line 62 raises `InvalidUrlError`.  When the parsed
scheme is not http/https or the host is missing, line 64 only assigns the
local variable `msg`; no `raise` statement follows, so the block completes
normally in that case. -/
def urlValidationBlock (parsed : Except Unit ParsedUrl) : Except InitError Unit :=
  match parsed with
  | .error _ => .error .invalidUrl
  | .ok p =>
    if (p.scheme ≠ some "http" ∧ p.scheme ≠ some "https") ∨ p.host = none then
      -- line 64 assigns msg but never raises it
      let _msg := "Invalid url"
      .ok ()
    else
      .ok ()

/-- External collaborators used by `_load_img`: `PIL.Image.open` on a file,
`requests.get` + `PIL.Image.open` on a URL body, and
`PIL.ImageOps.exif_transpose`. -/
structure LoadEnv where
  openImage : String → Img
  fetchImage : String → Img
  exifTranspose : Img → Img

/-- I/O performed by one `_load_img` call: local file reads and HTTP GETs. -/
structure IoCount where
  fileReads : Nat
  httpGets : Nat
  deriving DecidableEq

/-- The `ValueError` of src/lib/schema.py line 103. -/
inductive LoadError
  | valueErrorNoSourceAtLoad
  deriving DecidableEq

/-- `LazyLoadingImage._load_img` (src/lib/schema.py lines 82-105).

If `self._img is None`: when `_lazy_filepath` is truthy, open the file (one
file read); elif `_lazy_url` is truthy, GET the URL and decode the body (one
HTTP GET); else raise `ValueError`.  The freshly loaded image is passed
through `ImageOps.exif_transpose` (line 105, still inside the
`if self._img is None:` block).  If `_img` is already set, nothing at all
happens. -/
def loadImg (env : LoadEnv) (s : LazyState) :
    Except LoadError (LazyState × IoCount) :=
  match s.img with
  | some _ => .ok (s, ⟨0, 0⟩)
  | none =>
    if truthyStr s.lazyFilepath then
      .ok ({ s with
              img := some (env.exifTranspose (env.openImage (s.lazyFilepath.getD ""))) },
           ⟨1, 0⟩)
    else if truthyStr s.lazyUrl then
      .ok ({ s with
              img := some (env.exifTranspose (env.fetchImage (s.lazyUrl.getD ""))) },
           ⟨0, 1⟩)
    else
      .error .valueErrorNoSourceAtLoad

/-- `save_image_as_base64` (src/lib/schema.py lines 157-162): base64-encode
the PNG serialization of the image.  PNG serialization
(`image.save(buffered, format="PNG")`) and `base64.b64encode` are external
library calls, passed as parameters.  Note that in the source this
`@staticmethod` is indented inside the body of `__get_pydantic_core_schema`,
so it is only a local definition of that method and is not reachable as an
attribute of `LazyLoadingImage`. -/
def save_image_as_base64 (pngEncode : Img → String) (b64encode : String → String)
    (image : Img) : String :=
  b64encode (pngEncode image)

/-- `ControlInput.image_raw_validate` (src/lib/schema.py lines 195-200): the
pydantic field validator for `image_raw`.  `image` is the already-validated
value of the `image` field (`info.data.get("image")`), `v` is the candidate
`image_raw` value; if both are not `None` the validator raises `ValueError`,
otherwise it returns `v`. -/
def ControlInput.image_raw_validate (image : Option Img) (v : Option Img) :
    Except String (Option Img) :=
  if image.isSome ∧ v.isSome then
    .error "You cannot specify both image and image_raw"
  else
    .ok v

/-- On-disk state for src/lib/utils/downloads.py: an association list from
file path to file contents (directories are implicit; `os.makedirs` always
succeeds and is not tracked). -/
structure FS where
  files : List (String × String)
  deriving DecidableEq

/-- `os.path.exists(p)`. -/
def FS.pathExists (fs : FS) (p : String) : Bool :=
  fs.files.any (fun e => e.1 == p)

/-- Contents at path `p`, if the file exists. -/
def FS.read? (fs : FS) (p : String) : Option String :=
  (fs.files.find? (fun e => e.1 == p)).map (fun e => e.2)

/-- `open(p, "wb").write(c)`: create or overwrite the file at `p`. -/
def FS.write (fs : FS) (p c : String) : FS :=
  ⟨(p, c) :: fs.files.filter (fun e => e.1 != p)⟩

/-- `os.rename(old, dst)` on a regular file that exists at `old`. -/
def FS.rename (fs : FS) (old dst : String) : FS :=
  match fs.read? old with
  | none => fs
  | some c => ⟨(dst, c) :: (fs.files.filter (fun e => e.1 != old)).filter (fun e => e.1 != dst)⟩

/-- Python `s.startswith(pre)`: `pre` is a prefix of `s` (structurally
recursive over the character lists, so that it evaluates by reduction). -/
def strStartsWith (s pre : String) : Bool :=
  List.isPrefixOf pre.data s.data

/-- Modelled from the spec: `huggingface_cached_path` is repository code that
is not under src/ (downloads.py line 27 calls it, but its definition is
absent; only `hf_hub_download`/`try_to_load_from_cache` imports hint at it).
Per the spec, for URLs under the recognized model-hosting domain the resolver
must "delegate to that provider's own caching mechanism first; on any
provider-side failure (I/O or value error), fall back to the generic path".
One delegation outcome is either a local path inside the provider's own cache
or an `OSError`/`ValueError` failure, in each case together with however many
network calls the provider performed. -/
inductive HfOutcome
  | ok (path : String) (netCalls : Nat)
  | oserror (netCalls : Nat)
  | valueerror (netCalls : Nat)
  deriving DecidableEq

/-- `re.sub('[*<>:"|?]', "_", filename)` (src/lib/utils/downloads.py
line 39), over the character list so that it evaluates by reduction. -/
def sanitizeFilename (s : String) : String :=
  ⟨s.data.map (fun c =>
    if c = '*' ∨ c = '<' ∨ c = '>' ∨ c = ':' ∨ c = '\"' ∨ c = '|' ∨ c = '?'
    then '_' else c)⟩

/-- `os.path.join(a, b)` for a relative second component. -/
def pathJoin (a b : String) : String := a ++ "/" ++ b

/-- `url.split("/")[-1]` (src/lib/utils/downloads.py line 31): the substring
after the last "/" (computed by a structural fold: restart at every "/"). -/
def urlFilename (url : String) : String :=
  ⟨url.data.foldl (fun acc c => if c = '/' then [] else acc ++ [c]) []⟩

/-- Lines 32-37: the cache root (from the configuration collaborator), plus
the optional category subdirectory (`if category:` uses Python truthiness).
`get_cache_dir` is repository code not under src/; modelled from the spec
("a single process-wide root directory (location supplied by a configuration
collaborator)") as the parameter `cacheDir`. -/
def cacheDest (cacheDir : String) (category : Option String) : String :=
  if truthyStr category then pathJoin cacheDir (category.getD "") else cacheDir

/-- The sanitized destination path `dest_path` of lines 39-40. -/
def destPathFor (cacheDir : String) (url : String) (category : Option String) :
    String :=
  pathJoin (cacheDest cacheDir category) (sanitizeFilename (urlFilename url))

/-- The legacy unsanitized path `old_dest_path` of line 45. -/
def legacyPathFor (cacheDir : String) (url : String) (category : Option String) :
    String :=
  pathJoin (cacheDest cacheDir category) (urlFilename url)

/-- Result of one `get_cached_url_path` call: the returned path, the
filesystem afterwards, the number of `requests.get` calls the function itself
made, and the network calls made inside the provider delegation. -/
structure ResolveResult where
  path : String
  fs : FS
  gets : Nat
  hfNet : Nat
  deriving DecidableEq

/-- Lines 31-56 of `get_cached_url_path` (src/lib/utils/downloads.py): the
generic cache path.  Derive the filename from the last URL segment, sanitize
it, and compute the destination under the cache root (plus optional
category).  If the destination exists, return it (no network).  Else if the
legacy unsanitized path exists, rename it to the destination and return it
(no network).  Else perform one `requests.get(url)` and write the full
response body (`body url`) to the destination. -/
def genericCachedUrlPath (cacheDir : String) (body : String → String) (fs : FS)
    (url : String) (category : Option String) (hfNet : Nat) : ResolveResult :=
  let destPath := destPathFor cacheDir url category
  if fs.pathExists destPath then
    ⟨destPath, fs, 0, hfNet⟩
  else
    let oldDestPath := legacyPathFor cacheDir url category
    if fs.pathExists oldDestPath then
      ⟨destPath, fs.rename oldDestPath destPath, 0, hfNet⟩
    else
      ⟨destPath, fs.write destPath (body url), 1, hfNet⟩

/-- `get_cached_url_path` (src/lib/utils/downloads.py lines 24-56).  For a
URL starting with "https://huggingface.co" (line 25, no trailing slash), it
first delegates to the provider cache (`huggingface_cached_path`, the oracle
`hf`); a returned path is passed through unchanged, while `OSError` and
`ValueError` are swallowed by the `except (OSError, ValueError): pass` of
lines 28-29 and control falls through to the generic path. -/
def get_cached_url_path (hf : String → HfOutcome) (cacheDir : String)
    (body : String → String) (fs : FS) (url : String)
    (category : Option String) : ResolveResult :=
  if strStartsWith url "https://huggingface.co" then
    match hf url with
    | .ok p n => ⟨p, fs, 0, n⟩
    | .oserror n => genericCachedUrlPath cacheDir body fs url category n
    | .valueerror n => genericCachedUrlPath cacheDir body fs url category n
  else
    genericCachedUrlPath cacheDir body fs url category 0

/-- One `requests.head` request as issued by
`check_huggingface_url_authorized`: the URL and the value of the
`authorization` header, if any. -/
structure HeadRequest where
  url : String
  authorization : Option String
  deriving DecidableEq

/-- Modelled from the spec: `HuggingFaceAuthorizationError` is repository
code not under src/ (downloads.py line 71 raises it, but neither a definition
nor an import is present).  Per the spec the check raises "a distinct
'authorization required' error" on HTTP 401. -/
inductive AuthOutcome
  | ok
  | huggingFaceAuthorizationError (msg : String)
  deriving DecidableEq

/-- The remediation message of src/lib/utils/downloads.py line 70. -/
def huggingfaceAuthMsg : String :=
  "Unauthorized access to HuggingFace model. This model requires a huggingface token.  Please login to HuggingFace or set HUGGING_FACE_HUB_TOKEN to your User Access Token. See https://huggingface.co/docs/huggingface_hub/quick-start#login for more information"

/-- `check_huggingface_url_authorized` (src/lib/utils/downloads.py lines
58-72).  `token` is `HfFolder.get_token()` (credential-store collaborator);
`statusOf` is the server: the status code of a HEAD request.  For a URL not
starting with "https://huggingface.co/" the function returns `None` with no
request.  Otherwise it issues one HEAD request whose `authorization` header
is "Bearer " + token when a token is configured; on status 401 it raises the
authorization error with the remediation message, and on any other status it
returns `None`.  The second component lists the HEAD requests issued. -/
def check_huggingface_url_authorized (token : Option String)
    (statusOf : HeadRequest → Nat) (url : String) :
    AuthOutcome × List HeadRequest :=
  if ¬ strStartsWith url "https://huggingface.co/" then
    (.ok, [])
  else
    let req : HeadRequest := ⟨url, token.map (fun t => "Bearer " ++ t)⟩
    if statusOf req = 401 then
      (.huggingFaceAuthorizationError huggingfaceAuthMsg, [req])
    else
      (.ok, [req])

/-- A `pathlib.Path` value, as the list of components of an absolute posix
path: "/a/b" is ["a", "b"] and "/" is []. -/
abbrev PyPath := List String

/-- `Path.parent`: the parent of the filesystem root is the root itself
(`Path("/").parent == Path("/")`). -/
def PyPath.parent : PyPath → PyPath
  | [] => []
  | xs => xs.dropLast

/-- The loop condition `current_path != current_path.root`
(src/lib/utils/gitignore.py line 10).  `current_path.root` is a Python `str`
("/" for an absolute path); `PurePath.__eq__` returns `NotImplemented` for a
`str` operand, so `==` between a `Path` and a `str` is always `False` and
`!=` is always `True` - for every path, including the root itself. -/
def pathNeRootStr (_p : PyPath) : Bool := true

/-- Which ancestor directories contain each project marker: `.git` or `.hg`
as a directory, `pyproject.toml` or `setup.py` as a file. -/
structure ProjectMarkers where
  gitDir : PyPath → Bool
  hgDir : PyPath → Bool
  pyprojectFile : PyPath → Bool
  setupFile : PyPath → Bool

/-- Result of running `find_project_root` for a bounded number of loop
iterations: a marker directory was found, the loop exited (returning `None`),
or the loop is still running after the given number of iterations. -/
inductive FindRootResult
  | found (p : PyPath)
  | noRoot
  | fuelOut
  deriving DecidableEq

/-- `find_project_root` (src/lib/utils/gitignore.py lines 7-25) with an
explicit iteration bound: each fuel step is one iteration of the `while`
loop.  `fuelOut` means the loop is still running after `fuel` iterations. -/
def find_project_root (m : ProjectMarkers) : Nat → PyPath → FindRootResult
  | 0, _ => .fuelOut
  | n + 1, p =>
    if pathNeRootStr p then
      if m.gitDir p then .found p
      else if m.hgDir p then .found p
      else if m.pyprojectFile p then .found p
      else if m.setupFile p then .found p
      else find_project_root m n p.parent
    else
      .noRoot

/-! Concrete instances used by witnesses and counterexamples. -/

/-- Concrete load environment for witnesses. -/
def envW : LoadEnv := ⟨fun _ => 1, fun _ => 2, fun i => i + 10⟩

/-- Concrete PNG serializer for witnesses. -/
def pngEncodeC : Img → String := fun n => "png-" ++ toString n

/-- Concrete base64 encoder for witnesses. -/
def b64encodeC : String → String := fun s => "b64-" ++ s

/-- Provider-cache oracle that always fails with `ValueError` (the provider
rejects the URL as unindexed). -/
def hfReject : String → HfOutcome := fun _ => .valueerror 0

/-- Provider-cache oracle that resolves every URL inside the provider's own
cache directory, performing one network call. -/
def hfResolve : String → HfOutcome := fun _ => .ok "/hfcache/model.bin" 1

/-- Concrete HTTP GET body oracle. -/
def bodyC : String → String := fun _ => "BODY"

/-- Filesystem holding only the legacy unsanitized cache file for
"https://example.com/a?b.bin". -/
def fsLegacy : FS := ⟨[("/cache/a?b.bin", "OLD")]⟩

/-- Filesystem holding the sanitized destination for
".../model.bin" under the cache root. -/
def fsDest : FS := ⟨[("/cache/model.bin", "CACHED")]⟩

/-- Filesystem holding only the legacy unsanitized cache file for the
huggingface URL "https://huggingface.co/m?1.bin". -/
def fsLegacyHf : FS := ⟨[("/cache/m?1.bin", "OLD")]⟩

/-- Marker oracle for a filesystem with no project markers anywhere. -/
def noMarkers : ProjectMarkers := ⟨fun _ => false, fun _ => false, fun _ => false, fun _ => false⟩

/-! Theorems. -/

/-- Helper: reading the path just written returns the written contents. -/
theorem FS.read?_write (fs : FS) (p c : String) : (fs.write p c).read? p = some c := by
  simp [FS.write, FS.read?]

/-- C1: the claim says a construction call with exactly one valid source
succeeds, and zero or several sources fail with a construction-time error.
On the code, the zero-source case does raise `ValueError`, but every call
providing at least one source - including every valid single-source call -
raises `NameError` at src/lib/schema.py line 48, because the multiple-source
check reads the undefined name `u64` instead of `b64`.  This theorem
evaluates the constructor at a valid single-source input (an in-memory image)
and at the zero-source input. -/
theorem c1_single_source_construction_raises_nameError :
    LazyLoadingImage.init none none (some 0) none = .error .nameErrorU64 ∧
    LazyLoadingImage.init none none none none = .error .valueErrorNoSource := by
  constructor <;> rfl

/-- C2: materialization is idempotent with respect to I/O.  For every lazy
state with a configured source (a truthy filepath, a truthy URL, or an
already-decoded image), `_load_img` succeeds; a second call on the resulting
state performs zero file reads and zero HTTP GETs and leaves the state
unchanged; and across both calls the underlying load runs exactly once when
the image was not already decoded, and never when it was. -/
theorem c2_loadImg_idempotent (env : LoadEnv) (s : LazyState)
    (h : s.img.isSome ∨ truthyStr s.lazyFilepath ∨ truthyStr s.lazyUrl) :
    ∃ s1 c1, loadImg env s = .ok (s1, c1) ∧
      loadImg env s1 = .ok (s1, ⟨0, 0⟩) ∧
      c1.fileReads + c1.httpGets = (if s.img.isSome then 0 else 1) := by
  match hs : s.img with
  | some i =>
    exact ⟨s, ⟨0, 0⟩, by simp [loadImg, hs], by simp [loadImg, hs], by simp [hs]⟩
  | none =>
    by_cases hf : truthyStr s.lazyFilepath
    · refine ⟨{ s with
          img := some (env.exifTranspose (env.openImage (s.lazyFilepath.getD ""))) },
        ⟨1, 0⟩, ?_, ?_, by simp [hs]⟩
      · simp [loadImg, hs, hf]
      · simp [loadImg]
    · have hu : truthyStr s.lazyUrl := by
        rcases h with h | h | h
        · simp [hs] at h
        · exact absurd h hf
        · exact h
      refine ⟨{ s with
          img := some (env.exifTranspose (env.fetchImage (s.lazyUrl.getD ""))) },
        ⟨0, 1⟩, ?_, ?_, by simp [hs]⟩
      · simp [loadImg, hs, hf, hu]
      · simp [loadImg]

/-- Witness for C2 at a concrete file-backed state and environment. -/
theorem c2_loadImg_idempotent_witness :
    ∃ s1 c1,
      loadImg envW ⟨some "a.png", none, none⟩ = .ok (s1, c1) ∧
      loadImg envW s1 = .ok (s1, ⟨0, 0⟩) ∧
      c1.fileReads + c1.httpGets =
        (if (LazyState.mk (some "a.png") none none).img.isSome then 0 else 1) :=
  c2_loadImg_idempotent envW ⟨some "a.png", none, none⟩ (Or.inr (Or.inl (by decide)))

/-- C4: the claim says encoding a decoded image to a base64 PNG string,
constructing a new lazy image from that string, and materializing it yields
pixel-identical content.  On the code the round trip cannot even begin:
constructing from the base64 string produced by `save_image_as_base64`
raises `NameError` at src/lib/schema.py line 48 (undefined name `u64`), so no
lazy image ever comes into existence (moreover `save_image_as_base64` and
`load_image_from_base64` are nested inside `__get_pydantic_core_schema` and
are not reachable as attributes).  This theorem evaluates the constructor at
the encoded string of a concrete image. -/
theorem c4_roundtrip_construction_raises_nameError :
    LazyLoadingImage.init none none none
      (some (save_image_as_base64 pngEncodeC b64encodeC 7)) =
      .error .nameErrorU64 := by
  rfl

/-- C6: the claim says construction from a URL whose scheme is not
http/https, or which has no host, fails immediately with a distinct
malformed-URL error kind.  On the code it does not: first, construction with
a URL raises `NameError` at src/lib/schema.py line 48 (undefined name `u64`)
before the URL validation block is ever reached - and that is not the
distinct `InvalidUrlError`; second, even taken in isolation the validation
block of lines 55-64 merely assigns the message for a bad scheme or missing
host and is missing the `raise`, so it would accept "ftp://example.com/a.png"
(scheme "ftp", host "example.com") without error. -/
theorem c6_malformed_url_not_rejected :
    LazyLoadingImage.init none (some "ftp://example.com/a.png") none none =
      .error .nameErrorU64 ∧
    InitError.nameErrorU64 ≠ InitError.invalidUrl ∧
    urlValidationBlock (.ok ⟨some "ftp", some "example.com"⟩) = .ok () := by
  refine ⟨rfl, by decide, rfl⟩

/-- C8: a control-input spec fails validation when both the processed
reference image and the raw reference image are set, and passes this rule
(returning the candidate value) when at most one of them is set. -/
theorem c8_image_raw_mutual_exclusion (image v : Option Img) :
    (image.isSome ∧ v.isSome →
      ControlInput.image_raw_validate image v =
        .error "You cannot specify both image and image_raw") ∧
    (¬ (image.isSome ∧ v.isSome) →
      ControlInput.image_raw_validate image v = .ok v) := by
  constructor
  · intro hb
    simp [ControlInput.image_raw_validate, hb.1, hb.2]
  · intro hb
    simp only [ControlInput.image_raw_validate, if_neg hb]

/-- Witness for C8: both images set is rejected; only one set is accepted. -/
theorem c8_image_raw_mutual_exclusion_witness :
    ControlInput.image_raw_validate (some 0) (some 1) =
      .error "You cannot specify both image and image_raw" ∧
    ControlInput.image_raw_validate (some 0) none = .ok none ∧
    ControlInput.image_raw_validate none (some 1) = .ok (some 1) :=
  ⟨(c8_image_raw_mutual_exclusion (some 0) (some 1)).1 (by decide),
   (c8_image_raw_mutual_exclusion (some 0) none).2 (by decide),
   (c8_image_raw_mutual_exclusion none (some 1)).2 (by decide)⟩

/-- C5: for every URL not under the gated host the authorization check is a
no-op issuing no request; for every gated-host URL it issues exactly one HEAD
request whose authorization header carries the configured bearer token, and
it raises the distinct authorization error with the remediation message
exactly when the server answers 401, returning `None` silently on every
other status. -/
theorem c5_check_huggingface_url_authorized_behaviour (token : Option String)
    (statusOf : HeadRequest → Nat) (url : String) :
    (strStartsWith url "https://huggingface.co/" = false →
      check_huggingface_url_authorized token statusOf url = (.ok, [])) ∧
    (strStartsWith url "https://huggingface.co/" = true →
      (check_huggingface_url_authorized token statusOf url).2 =
        [⟨url, token.map (fun t => "Bearer " ++ t)⟩] ∧
      (statusOf ⟨url, token.map (fun t => "Bearer " ++ t)⟩ = 401 →
        (check_huggingface_url_authorized token statusOf url).1 =
          .huggingFaceAuthorizationError huggingfaceAuthMsg) ∧
      (statusOf ⟨url, token.map (fun t => "Bearer " ++ t)⟩ ≠ 401 →
        (check_huggingface_url_authorized token statusOf url).1 = .ok)) := by
  constructor
  · intro hn
    simp [check_huggingface_url_authorized, hn]
  · intro hy
    refine ⟨?_, ?_, ?_⟩
    · by_cases h4 : statusOf ⟨url, token.map (fun t => "Bearer " ++ t)⟩ = 401 <;>
        simp [check_huggingface_url_authorized, hy, h4]
    · intro h4
      simp [check_huggingface_url_authorized, hy, h4]
    · intro h4
      simp [check_huggingface_url_authorized, hy, h4]

set_option maxRecDepth 8192 in
/-- Witness for C5: a gated URL with a configured token and a 401 server
raises the authorization error and sent the bearer header; the same URL
against a 200 server passes silently; a non-gated URL issues nothing. -/
theorem c5_check_huggingface_url_authorized_witness :
    (check_huggingface_url_authorized (some "tok") (fun _ => 401)
        "https://huggingface.co/gated/model").1 =
      .huggingFaceAuthorizationError huggingfaceAuthMsg ∧
    (check_huggingface_url_authorized (some "tok") (fun _ => 401)
        "https://huggingface.co/gated/model").2 =
      [⟨"https://huggingface.co/gated/model", some "Bearer tok"⟩] ∧
    (check_huggingface_url_authorized (some "tok") (fun _ => 200)
        "https://huggingface.co/gated/model").1 = .ok ∧
    check_huggingface_url_authorized (some "tok") (fun _ => 401)
        "https://example.com/model" = (.ok, []) :=
  ⟨((c5_check_huggingface_url_authorized_behaviour (some "tok") (fun _ => 401)
      "https://huggingface.co/gated/model").2 (by decide)).2.1 rfl,
   ((c5_check_huggingface_url_authorized_behaviour (some "tok") (fun _ => 401)
      "https://huggingface.co/gated/model").2 (by decide)).1,
   ((c5_check_huggingface_url_authorized_behaviour (some "tok") (fun _ => 200)
      "https://huggingface.co/gated/model").2 (by decide)).2.2 (by decide),
   (c5_check_huggingface_url_authorized_behaviour (some "tok") (fun _ => 401)
      "https://example.com/model").1 (by decide)⟩

/-- C9: for every URL under the recognized model-hosting domain
(huggingface.co), resolution first delegates to the provider's own caching
mechanism - a provider success is returned as-is before any generic-cache
work - and on a provider-side OSError or ValueError it falls back to the
generic cache path instead of propagating that error. -/
theorem c9_huggingface_delegation_and_fallback (hf : String → HfOutcome)
    (cacheDir : String) (body : String → String) (fs : FS) (url : String)
    (category : Option String)
    (h : strStartsWith url "https://huggingface.co" = true) :
    (∀ p n, hf url = .ok p n →
      get_cached_url_path hf cacheDir body fs url category = ⟨p, fs, 0, n⟩) ∧
    (∀ n, hf url = .oserror n →
      get_cached_url_path hf cacheDir body fs url category =
        genericCachedUrlPath cacheDir body fs url category n) ∧
    (∀ n, hf url = .valueerror n →
      get_cached_url_path hf cacheDir body fs url category =
        genericCachedUrlPath cacheDir body fs url category n) := by
  refine ⟨?_, ?_, ?_⟩
  · intro p n hp
    simp [get_cached_url_path, h, hp]
  · intro n hp
    simp [get_cached_url_path, h, hp]
  · intro n hp
    simp [get_cached_url_path, h, hp]

set_option maxRecDepth 8192 in
/-- Witness for C9: a provider-side ValueError on a huggingface URL falls
back to the generic cache path. -/
theorem c9_huggingface_delegation_and_fallback_witness :
    get_cached_url_path hfReject "/cache" bodyC ⟨[]⟩
        "https://huggingface.co/org/m.bin" none =
      genericCachedUrlPath "/cache" bodyC ⟨[]⟩
        "https://huggingface.co/org/m.bin" none 0 :=
  (c9_huggingface_delegation_and_fallback hfReject "/cache" bodyC ⟨[]⟩
      "https://huggingface.co/org/m.bin" none (by decide)).2.2 0 rfl

set_option maxRecDepth 8192 in
/-- C3 counterexample.  The claim as stated fails on the code at two concrete
inputs.  First, for "https://example.com/a?b.bin" with the legacy unsanitized
cache file present and the sanitized destination absent, resolution performs
zero GET requests, not exactly one (the legacy file is renamed instead).
Second, for "https://huggingface.co/org/model.bin" with the sanitized
destination already present, provider delegation wins: resolution returns a
provider-cache path different from the sanitized destination and performs
provider network calls instead of zero. -/
theorem c3_counterexample_resolution :
    (fsLegacy.pathExists
        (destPathFor "/cache" "https://example.com/a?b.bin" none) = false ∧
      (get_cached_url_path hfReject "/cache" bodyC fsLegacy
          "https://example.com/a?b.bin" none).gets = 0) ∧
    (fsDest.pathExists
        (destPathFor "/cache" "https://huggingface.co/org/model.bin" none) = true ∧
      (get_cached_url_path hfResolve "/cache" bodyC fsDest
          "https://huggingface.co/org/model.bin" none).path ≠
        destPathFor "/cache" "https://huggingface.co/org/model.bin" none ∧
      (get_cached_url_path hfResolve "/cache" bodyC fsDest
          "https://huggingface.co/org/model.bin" none).hfNet ≠ 0) := by
  refine ⟨⟨?_, ?_⟩, ?_, ?_, ?_⟩ <;> decide

/-- C3 (amended): for every URL that is not under the huggingface.co
provider domain, cache resolution is deterministic - the returned path is the
sanitized destination computed from the URL and category alone, independent
of the filesystem and the network; when the destination exists the call
returns it with zero network activity and an unchanged filesystem; and when
neither the destination nor the legacy unsanitized path exists the call
performs exactly one GET and leaves the response body at the destination. -/
theorem c3_amended_resolution (hf : String → HfOutcome) (cacheDir : String)
    (body : String → String) (fs : FS) (url : String) (category : Option String)
    (h : strStartsWith url "https://huggingface.co" = false) :
    (get_cached_url_path hf cacheDir body fs url category).path =
      destPathFor cacheDir url category ∧
    (get_cached_url_path hf cacheDir body fs url category).hfNet = 0 ∧
    (fs.pathExists (destPathFor cacheDir url category) = true →
      get_cached_url_path hf cacheDir body fs url category =
        ⟨destPathFor cacheDir url category, fs, 0, 0⟩) ∧
    (fs.pathExists (destPathFor cacheDir url category) = false →
      fs.pathExists (legacyPathFor cacheDir url category) = false →
      (get_cached_url_path hf cacheDir body fs url category).gets = 1 ∧
      (get_cached_url_path hf cacheDir body fs url category).fs.read?
        (destPathFor cacheDir url category) = some (body url)) := by
  have hg : get_cached_url_path hf cacheDir body fs url category =
      genericCachedUrlPath cacheDir body fs url category 0 := by
    simp [get_cached_url_path, h]
  rw [hg]
  by_cases hd : fs.pathExists (destPathFor cacheDir url category)
  · simp [genericCachedUrlPath, hd]
  · by_cases hl : fs.pathExists (legacyPathFor cacheDir url category)
    · simp [genericCachedUrlPath, hd, hl]
    · simp [genericCachedUrlPath, hd, hl, FS.read?_write]

set_option maxRecDepth 8192 in
/-- Witness for C3 (amended): resolving "https://example.com/model.bin" on an
empty cache performs exactly one GET and leaves the response body at the
sanitized destination. -/
theorem c3_amended_resolution_witness :
    (get_cached_url_path hfReject "/cache" bodyC ⟨[]⟩
        "https://example.com/model.bin" none).gets = 1 ∧
    (get_cached_url_path hfReject "/cache" bodyC ⟨[]⟩
        "https://example.com/model.bin" none).fs.read?
      (destPathFor "/cache" "https://example.com/model.bin" none) =
      some (bodyC "https://example.com/model.bin") :=
  (c3_amended_resolution hfReject "/cache" bodyC ⟨[]⟩
      "https://example.com/model.bin" none (by decide)).2.2.2 (by decide) (by decide)

set_option maxRecDepth 8192 in
/-- C7 counterexample: for the huggingface URL "https://huggingface.co/m?1.bin"
whose sanitized destination does not exist and whose legacy unsanitized path
does exist, a successful provider delegation returns a provider-cache path:
the legacy file is neither renamed nor returned (the filesystem is unchanged),
contradicting the claim for this URL. -/
theorem c7_counterexample_no_rename :
    fsLegacyHf.pathExists
        (destPathFor "/cache" "https://huggingface.co/m?1.bin" none) = false ∧
    fsLegacyHf.pathExists
        (legacyPathFor "/cache" "https://huggingface.co/m?1.bin" none) = true ∧
    (get_cached_url_path hfResolve "/cache" bodyC fsLegacyHf
        "https://huggingface.co/m?1.bin" none).path ≠
      destPathFor "/cache" "https://huggingface.co/m?1.bin" none ∧
    (get_cached_url_path hfResolve "/cache" bodyC fsLegacyHf
        "https://huggingface.co/m?1.bin" none).fs = fsLegacyHf := by
  refine ⟨?_, ?_, ?_, ?_⟩ <;> decide

/-- C7 (amended): for every URL that is not under the huggingface.co provider
domain, when the sanitized destination does not yet exist but the legacy
unsanitized-filename path does, resolution renames the legacy file into the
sanitized destination and returns that path with zero GET requests. -/
theorem c7_amended_legacy_rename (hf : String → HfOutcome) (cacheDir : String)
    (body : String → String) (fs : FS) (url : String) (category : Option String)
    (h : strStartsWith url "https://huggingface.co" = false)
    (hd : fs.pathExists (destPathFor cacheDir url category) = false)
    (hl : fs.pathExists (legacyPathFor cacheDir url category) = true) :
    get_cached_url_path hf cacheDir body fs url category =
      ⟨destPathFor cacheDir url category,
       fs.rename (legacyPathFor cacheDir url category)
         (destPathFor cacheDir url category), 0, 0⟩ := by
  simp [get_cached_url_path, h, genericCachedUrlPath, hd, hl]

set_option maxRecDepth 8192 in
/-- Witness for C7 (amended): the legacy file "/cache/a?b.bin" is renamed to
"/cache/a_b.bin" and returned, with zero GETs. -/
theorem c7_amended_legacy_rename_witness :
    get_cached_url_path hfReject "/cache" bodyC fsLegacy
        "https://example.com/a?b.bin" none =
      ⟨destPathFor "/cache" "https://example.com/a?b.bin" none,
       fsLegacy.rename (legacyPathFor "/cache" "https://example.com/a?b.bin" none)
         (destPathFor "/cache" "https://example.com/a?b.bin" none), 0, 0⟩ :=
  c7_amended_legacy_rename hfReject "/cache" bodyC fsLegacy
    "https://example.com/a?b.bin" none (by decide) (by decide) (by decide)

/-- C10: the claim says `find_project_root` terminates for every start path,
returning the first marked ancestor or None.  On the code, when no ancestor
carries a marker the loop never exits: the `while` condition compares the
`Path` to the `str` `current_path.root` - never equal - and the parent of the
root is the root itself, so iteration continues forever; the `return None`
after the loop is unreachable.  This theorem shows that on a filesystem with
no markers the fueled evaluation is still running after every finite number
of iterations, from every start path. -/
theorem c10_find_project_root_diverges_without_markers :
    ∀ (n : Nat) (p : PyPath), find_project_root noMarkers n p = .fuelOut := by
  intro n
  induction n with
  | zero => intro p; rfl
  | succ k ih =>
    intro p
    exact ih p.parent
